import Mathlib

/-!
Verification of the sdaLocal Record Store (src/sda_local/app.py).

The application keeps four ordered collections (bulletin events, finance
entries, building projects, chat messages) in a dict `self.data`, loads them
from and serializes them to a single JSON document, and exposes add, delete
and update operations.  This file gives a shallow embedding of that data
layer: Python dict-shaped records become Lean structures, the JSON document
becomes an explicit JSON value type, floats entered through the UI are
modelled as rationals, and the widget-supplied strings (already read from the
entry widgets) are the operations' inputs.  Presentation-layer effects
(Treeview rows, labels, message boxes, the simulated delayed chat auto-reply)
are outside the Record Store and are not modelled; validation failures that
the code reports via a message box and an early return are modelled as the
operation returning the unchanged state together with an error value.
-/

namespace SDALocal

/-! ## Character and string helpers

Python's `str.strip`, `str.lower`, `float(...)` and
`datetime.strptime(_, "%Y-%m-%d")` are external builtins used by the code.
They are modelled here by structurally recursive functions over `List Char`
so that every definition evaluates inside the kernel.
-/

/-- Whitespace characters removed by Python `str.strip()` (ASCII subset). -/
def isSpaceChar (c : Char) : Bool :=
  c == ' ' || c == '\t' || c == '\n' || c == '\r' || c == '\x0b' || c == '\x0c'

/-- Drop leading whitespace characters. -/
def dropLeading : List Char → List Char
  | [] => []
  | c :: cs => if isSpaceChar c then dropLeading cs else c :: cs

/-- Model of Python `str.strip()`: remove whitespace from both ends. -/
def pyStrip (s : String) : String :=
  ⟨(dropLeading (dropLeading s.data).reverse).reverse⟩

/-- Split a character list at every occurrence of `c` (auxiliary). -/
def splitOnCharAux (c : Char) : List Char → List Char → List (List Char)
  | [], acc => [acc.reverse]
  | x :: xs, acc =>
      if x == c then acc.reverse :: splitOnCharAux c xs []
      else splitOnCharAux c xs (x :: acc)

/-- Split a character list at every occurrence of `c`; `n` separators give
`n + 1` (possibly empty) chunks, like Python `str.split(c)`. -/
def splitOnChar (c : Char) (l : List Char) : List (List Char) :=
  splitOnCharAux c l []

/-- Numeric value of a decimal digit character. -/
def digitVal (c : Char) : Nat := c.toNat - 48

/-- Accumulate the value of a digit string; `none` on any non-digit. -/
def digitsValAux : List Char → Nat → Option Nat
  | [], acc => some acc
  | c :: cs, acc =>
      if c.isDigit then digitsValAux cs (acc * 10 + digitVal c) else none

/-- Value of a non-empty all-digit character list, `none` otherwise. -/
def digitsVal : List Char → Option Nat
  | [] => none
  | l => digitsValAux l 0

/-- Model of Python `str.lower()` (ASCII letters). -/
def toLowerList (l : List Char) : List Char := l.map Char.toLower

/-- Model of Python `str.lower()` on a string (ASCII letters). -/
def pyLower (s : String) : String := ⟨toLowerList s.data⟩

/-! ## Model of Python `float(...)` on decimal literals

`_add_finance_entry` and `_add_project` validate numeric input with
`float(text)`.  The model below accepts an optional sign, a decimal mantissa
(`"12"`, `"12."`, `".5"`, `"3.25"`) and an optional exponent part
(`"1e3"`, `"2E-4"`), i.e. the ordinary finite decimal literals; the exotic
`float` spellings (`"inf"`, `"nan"`, digit underscores) are not modelled.
The result is the exact rational value of the literal.
-/

/-- Value of an unsigned decimal mantissa, `none` if it is not one. -/
def parseUnsignedDec (l : List Char) : Option ℚ :=
  match splitOnChar '.' l with
  | [ip] => (digitsVal ip).map (fun n => (n : ℚ))
  | [ip, fp] =>
      match ip, fp with
      | [], [] => none
      | [], _ => (digitsVal fp).map (fun f => (f : ℚ) / (10 : ℚ) ^ fp.length)
      | _, [] => (digitsVal ip).map (fun n => (n : ℚ))
      | _, _ => do
          let n ← digitsVal ip
          let f ← digitsVal fp
          some ((n : ℚ) + (f : ℚ) / (10 : ℚ) ^ fp.length)
  | _ => none

/-- Model of Python `float(text)` on ordinary decimal literals: optional
sign, decimal mantissa, optional `e`/`E` exponent; surrounding whitespace is
ignored as `float` itself strips it. -/
def parseFloat (s : String) : Option ℚ :=
  let t := (pyStrip s).data
  let sb : ℚ × List Char :=
    match t with
    | '-' :: rest => (-1, rest)
    | '+' :: rest => (1, rest)
    | _ => (1, t)
  match splitOnChar 'e' (toLowerList sb.2) with
  | [mant] => (parseUnsignedDec mant).map (fun m => sb.1 * m)
  | [mant, ex] => do
      let m ← parseUnsignedDec mant
      let ep : Bool × List Char :=
        match ex with
        | '-' :: rest => (true, rest)
        | '+' :: rest => (false, rest)
        | _ => (false, ex)
      let e ← digitsVal ep.2
      some (sb.1 * m * (if ep.1 then ((10 : ℚ) ^ e)⁻¹ else (10 : ℚ) ^ e))
  | _ => none

/-! ## Model of `datetime.strptime(text, "%Y-%m-%d")`

`_add_event` validates the date with `strptime`.  CPython's `_strptime`
matches `%Y` against exactly four digits and `%m`/`%d` against one or two
digits with values `1..12` / `1..31`, and the `datetime` constructor then
rejects year `0` and days beyond the month length (Gregorian leap rules).
-/

/-- Gregorian leap-year rule used by `datetime`. -/
def isLeapYear (y : Nat) : Bool :=
  (y % 4 == 0 && y % 100 != 0) || y % 400 == 0

/-- Number of days in month `m` of year `y`. -/
def daysInMonth (y m : Nat) : Nat :=
  if m = 2 then (if isLeapYear y then 29 else 28)
  else if m = 4 ∨ m = 6 ∨ m = 9 ∨ m = 11 then 30
  else 31

/-- Validation of the three dash-separated chunks of a `%Y-%m-%d` date:
exactly four year digits, one or two month and day digits, values in range,
year at least 1, day valid for the month. -/
def validYMD (ys ms ds : List Char) : Option (Nat × Nat × Nat) := do
  let y ← digitsVal ys
  let m ← digitsVal ms
  let d ← digitsVal ds
  if ys.length = 4 ∧ ms.length ≤ 2 ∧ ds.length ≤ 2 ∧
     1 ≤ y ∧ 1 ≤ m ∧ m ≤ 12 ∧ 1 ≤ d ∧ d ≤ daysInMonth y m
  then some (y, m, d) else none

/-- Model of `datetime.strptime(s, "%Y-%m-%d")`: `some (y, m, d)` when the
string is accepted, `none` when it raises `ValueError`. -/
def parseDateYMD (s : String) : Option (Nat × Nat × Nat) :=
  match splitOnChar '-' s.data with
  | [ys, ms, ds] => validYMD ys ms ds
  | _ => none

/-- Claim-side check on the three chunks of an ISO date: four-digit year,
two-digit month and day, values in calendar range. -/
def isoYMD (ys ms ds : List Char) : Bool :=
  ys.length == 4 && ms.length == 2 && ds.length == 2 &&
  (match digitsVal ys, digitsVal ms, digitsVal ds with
   | some y, some m, some d =>
       decide (1 ≤ y ∧ 1 ≤ m ∧ m ≤ 12 ∧ 1 ≤ d ∧ d ≤ daysInMonth y m)
   | _, _, _ => false)

/-- Claim-side notion of an ISO `YYYY-MM-DD` calendar date: four-digit year
(at least 1, proleptic Gregorian), two-digit month and day, day valid for the
month.  Written from the spec's words, to be related to `parseDateYMD`. -/
def isoDate (s : String) : Bool :=
  match splitOnChar '-' s.data with
  | [ys, ms, ds] => isoYMD ys ms ds
  | _ => false

/-! ## Record types (the `@dataclass` definitions of `app.py`) -/

/-- Data model representing a bulletin event (`class Event`). -/
structure Event where
  title : String
  date : String
  description : String
deriving DecidableEq

/-- Data model representing a financial record (`class FinanceEntry`); the
float `amount` is modelled as a rational. -/
structure FinanceEntry where
  entry_type : String
  amount : ℚ
  category : String
  note : String
  created_at : String
deriving DecidableEq

/-- Data model representing a building project (`class Project`); the float
`budget` is modelled as a rational. -/
structure Project where
  name : String
  manager : String
  start_date : String
  end_date : String
  budget : ℚ
  status : String
  description : String
deriving DecidableEq

/-- A chat log entry as appended by `_append_chat`. -/
structure ChatMessage where
  sender : String
  message : String
  timestamp : String
deriving DecidableEq

/-! ## Finance summary (`_update_finance_summary`) -/

/-- The three derived figures rendered by `_update_finance_summary`. -/
structure FinanceSummary where
  income : ℚ
  expense : ℚ
  balance : ℚ
deriving DecidableEq

/-- Model of `_update_finance_summary` on the finance collection: income sums
amounts with `entry_type == "Income"`, expenses sums amounts with
`entry_type.lower() == "expense"`, balance is their difference.  The label
formatting is presentation and is not modelled. -/
def updateFinanceSummary (finance : List FinanceEntry) : FinanceSummary :=
  let income :=
    ((finance.filter (fun e => e.entry_type == "Income")).map
      FinanceEntry.amount).sum
  let expenses :=
    ((finance.filter (fun e => pyLower e.entry_type == "expense")).map
      FinanceEntry.amount).sum
  { income := income, expense := expenses, balance := income - expenses }

/-- Claim-side case-insensitive string comparison. -/
def caseInsensitiveEq (a b : String) : Bool := pyLower a == pyLower b

/-! ## The JSON document and the in-memory store

`self.data` is a dict with the keys `events`, `finance`, `projects`, `chat`;
a loaded document may lack some of them (the code reads with
`self.data.get(key, [])` or `setdefault`), so the typed view keeps each
collection as an `Option` that is `none` exactly when the key is absent.
`_save_data` writes `json.dumps(self.data)`; serialization is modelled at the
JSON-value level (`json.loads (json.dumps v) = v` for JSON-representable
values is assumed of the Python `json` module).
-/

/-- A JSON value, the shape of data parsed by `json.loads`. -/
inductive JValue where
  | null
  | bool (b : Bool)
  | num (q : ℚ)
  | str (s : String)
  | arr (elems : List JValue)
  | obj (fields : List (String × JValue))

/-- Typed view of `self.data`: the four collections, each `none` when its key
is absent from the dict. -/
structure Store where
  events : Option (List Event)
  finance : Option (List FinanceEntry)
  projects : Option (List Project)
  chat : Option (List ChatMessage)
deriving DecidableEq

/-- The dict `self.data` is initialized to in `__init__`: all four keys
present, each mapped to an empty list. -/
def initialStore : Store := ⟨some [], some [], some [], some []⟩

/-- Serialization of one event, as `asdict(Event(...))` then `json.dumps`
produce it (fields in declaration order). -/
def encodeEvent (e : Event) : JValue :=
  .obj [("title", .str e.title), ("date", .str e.date),
        ("description", .str e.description)]

/-- Serialization of one finance entry. -/
def encodeFinanceEntry (e : FinanceEntry) : JValue :=
  .obj [("entry_type", .str e.entry_type), ("amount", .num e.amount),
        ("category", .str e.category), ("note", .str e.note),
        ("created_at", .str e.created_at)]

/-- Serialization of one project. -/
def encodeProject (p : Project) : JValue :=
  .obj [("name", .str p.name), ("manager", .str p.manager),
        ("start_date", .str p.start_date), ("end_date", .str p.end_date),
        ("budget", .num p.budget), ("status", .str p.status),
        ("description", .str p.description)]

/-- Serialization of one chat message. -/
def encodeChatMessage (m : ChatMessage) : JValue :=
  .obj [("sender", .str m.sender), ("message", .str m.message),
        ("timestamp", .str m.timestamp)]

/-- Serialization of the whole store, as `json.dumps(self.data)` writes it:
one object holding exactly the keys present in the dict. -/
def encodeStore (s : Store) : JValue :=
  .obj ((match s.events with
         | none => []
         | some l => [("events", JValue.arr (l.map encodeEvent))]) ++
        (match s.finance with
         | none => []
         | some l => [("finance", JValue.arr (l.map encodeFinanceEntry))]) ++
        (match s.projects with
         | none => []
         | some l => [("projects", JValue.arr (l.map encodeProject))]) ++
        (match s.chat with
         | none => []
         | some l => [("chat", JValue.arr (l.map encodeChatMessage))]))

/-- Decode one event from its serialized shape. -/
def decodeEvent : JValue → Option Event
  | .obj [("title", .str t), ("date", .str d), ("description", .str dsc)] =>
      some ⟨t, d, dsc⟩
  | _ => none

/-- Decode one finance entry from its serialized shape. -/
def decodeFinanceEntry : JValue → Option FinanceEntry
  | .obj [("entry_type", .str et), ("amount", .num a), ("category", .str c),
          ("note", .str n), ("created_at", .str ca)] =>
      some ⟨et, a, c, n, ca⟩
  | _ => none

/-- Decode one project from its serialized shape. -/
def decodeProject : JValue → Option Project
  | .obj [("name", .str n), ("manager", .str mg), ("start_date", .str sd),
          ("end_date", .str ed), ("budget", .num b), ("status", .str st),
          ("description", .str dsc)] =>
      some ⟨n, mg, sd, ed, b, st, dsc⟩
  | _ => none

/-- Decode one chat message from its serialized shape. -/
def decodeChatMessage : JValue → Option ChatMessage
  | .obj [("sender", .str s), ("message", .str m), ("timestamp", .str t)] =>
      some ⟨s, m, t⟩
  | _ => none

/-- Decode every element of a list, failing if any element fails. -/
def decodeListWith (f : JValue → Option α) : List JValue → Option (List α)
  | [] => some []
  | v :: vs => do
      let a ← f v
      let as ← decodeListWith f vs
      some (a :: as)

/-- First value bound to key `k` in a JSON object's field list (dicts have
unique keys, so first match is the match). -/
def lookupKey (k : String) : List (String × JValue) → Option JValue
  | [] => none
  | (k2, v) :: rest => if k2 == k then some v else lookupKey k rest

/-- Decode an optional collection field: an absent key is `some none`
(key missing, collection absent), a present key must be an array of
well-shaped records. -/
def fieldAs (f : JValue → Option α) (k : String)
    (fields : List (String × JValue)) : Option (Option (List α)) :=
  match lookupKey k fields with
  | none => some none
  | some (.arr vs) => (decodeListWith f vs).map some
  | some _ => none

/-- Typed view of a parsed document: `some s` when the JSON value is an
object whose four collection keys (those present) hold well-shaped arrays. -/
def asStore : JValue → Option Store
  | .obj fields => do
      let evs ← fieldAs decodeEvent "events" fields
      let fin ← fieldAs decodeFinanceEntry "finance" fields
      let prjs ← fieldAs decodeProject "projects" fields
      let msgs ← fieldAs decodeChatMessage "chat" fields
      some ⟨evs, fin, prjs, msgs⟩
  | _ => none

/-! ## Loading (`_load_data`) -/

/-- State of the backing file `sdalocal_data.json` as seen by `_load_data`:
absent, present but not parseable as JSON (UTF-8 text whose parse raises
`json.JSONDecodeError`), or present with JSON content `v`. -/
inductive FileState where
  | absent
  | notJson
  | content (v : JValue)

/-- Result of `_load_data`: the dict `self.data` afterwards (as raw JSON
value, since the code assigns the parse result without validation) and
whether the data-corruption warning was shown. -/
structure LoadResult where
  data : JValue
  warned : Bool

/-- Model of `_load_data`: an absent file keeps the constructor-initialized
four empty collections; a `json.JSONDecodeError` shows the warning and resets
to four empty collections; any successfully parsed JSON value becomes
`self.data` as-is. -/
def loadData : FileState → LoadResult
  | .absent => ⟨encodeStore initialStore, false⟩
  | .notJson => ⟨encodeStore initialStore, true⟩
  | .content v => ⟨v, false⟩

/-! ## Mutating operations

Each operation acts on a `World`: the in-memory store plus the persisted
document.  The code's early-`return` validation failures are modelled by
returning the unchanged world together with `some` error; the saving branches
end with `_save_data`, i.e. the file becomes the serialization of the store.
-/

/-- The in-memory store together with the persisted document. -/
structure World where
  store : Store
  file : JValue

/-- Errors surfaced by the operations: a validation error shown in a message
box (recoverable, operation aborted), or an uncaught Python `KeyError` from a
direct `self.data[key]` access. -/
inductive OpError where
  | validationError (message : String)
  | keyError (key : String)
deriving DecidableEq

/-- Model of `_save_data`: overwrite the file with the serialized store. -/
def saveData (w : World) : World :=
  { w with file := encodeStore w.store }

/-- Model of `_add_event` (its Record Store core; the Treeview row insert is
presentation).  The widget reads strip surrounding whitespace; missing title
or date and an unparseable date abort with no state change; otherwise the
event is appended via `setdefault("events", [])` and the document saved. -/
def addEvent (titleRaw dateRaw descRaw : String) (w : World) :
    World × Option OpError :=
  let title := pyStrip titleRaw
  let date_text := pyStrip dateRaw
  let description := pyStrip descRaw
  if title = "" ∨ date_text = "" then
    (w, some (.validationError "Missing Information"))
  else
    match parseDateYMD date_text with
    | none => (w, some (.validationError "Invalid Date"))
    | some _ =>
        let e : Event := ⟨title, date_text, description⟩
        let s := { w.store with events := some (w.store.events.getD [] ++ [e]) }
        (saveData { w with store := s }, none)

/-- Model of `_delete_event`'s Record Store core: filter
`self.data["events"]` (a direct key access — `KeyError` when the key is
absent), keeping entries that do not match the selected (date, title), then
save. -/
def deleteEvent (title date : String) (w : World) : World × Option OpError :=
  match w.store.events with
  | none => (w, some (.keyError "events"))
  | some evs =>
      let s := { w.store with
                 events := some (evs.filter
                   (fun e => !(e.date == date && e.title == title))) }
      (saveData { w with store := s }, none)

/-- Model of `_add_finance_entry`: the amount must parse as a float and be
positive, otherwise abort with no state change; a blank (stripped) category
defaults to `"Uncategorized"`; the entry is stamped with the caller-supplied
creation timestamp, appended via `setdefault("finance", [])` and saved. -/
def addFinanceEntry (entryType amountRaw categoryRaw noteRaw createdAt :
    String) (w : World) : World × Option OpError :=
  let amount_text := pyStrip amountRaw
  let category :=
    if pyStrip categoryRaw = "" then "Uncategorized" else pyStrip categoryRaw
  let note := pyStrip noteRaw
  match parseFloat amount_text with
  | none => (w, some (.validationError "Invalid amount"))
  | some amount =>
      if amount ≤ 0 then (w, some (.validationError "Invalid amount"))
      else
        let entry : FinanceEntry := ⟨entryType, amount, category, note, createdAt⟩
        let s := { w.store with
                   finance := some (w.store.finance.getD [] ++ [entry]) }
        (saveData { w with store := s }, none)

/-- Model of `_add_project`: a blank budget text defaults to `"0"`; an empty
name or an unparseable budget aborts with no state change; the parsed budget
is stored as-is (the code performs no sign check on it); the project is
appended via `setdefault("projects", [])` and saved. -/
def addProject (nameRaw managerRaw startRaw endRaw budgetRaw status descRaw :
    String) (w : World) : World × Option OpError :=
  let name := pyStrip nameRaw
  let manager := pyStrip managerRaw
  let start_date := pyStrip startRaw
  let end_date := pyStrip endRaw
  let budget_text := if pyStrip budgetRaw = "" then "0" else pyStrip budgetRaw
  let description := pyStrip descRaw
  if name = "" then (w, some (.validationError "Missing information"))
  else
    match parseFloat budget_text with
    | none => (w, some (.validationError "Invalid budget"))
    | some budget =>
        let p : Project :=
          ⟨name, manager, start_date, end_date, budget, status, description⟩
        let s := { w.store with
                   projects := some (w.store.projects.getD [] ++ [p]) }
        (saveData { w with store := s }, none)

/-- Update the first list element whose `name` matches, setting its `status`;
`none` when no element matches (models `next((p for p in ... if p["name"] ==
iid), None)` followed by the in-place `project["status"] = new_status`). -/
def updateFirstStatus (name newStatus : String) :
    List Project → Option (List Project)
  | [] => none
  | p :: ps =>
      if p.name == name then some ({ p with status := newStatus } :: ps)
      else (updateFirstStatus name newStatus ps).map (p :: ·)

/-- Model of `_update_project_status`'s Record Store core: look up the first
project whose name matches over `self.data.get("projects", [])`; when none
matches report an error with no state change; otherwise mutate that project's
status in place and save. -/
def updateProjectStatus (name newStatus : String) (w : World) :
    World × Option OpError :=
  match updateFirstStatus name newStatus (w.store.projects.getD []) with
  | none => (w, some (.validationError "Missing project"))
  | some ps =>
      let s := { w.store with projects := some ps }
      (saveData { w with store := s }, none)

/-- Model of `_delete_project`'s Record Store core: reassign
`self.data["projects"]` to `self.data.get("projects", [])` filtered on name,
then save.  The read uses `.get`, so an absent key raises nothing. -/
def deleteProject (name : String) (w : World) : World × Option OpError :=
  let s := { w.store with
             projects := some ((w.store.projects.getD []).filter
               (fun p => !(p.name == name))) }
  (saveData { w with store := s }, none)

/-- Model of `_append_chat` with `save=True`: append the message (stamped
with the caller-supplied `HH:MM` timestamp) via `setdefault("chat", [])` and
save. -/
def appendChat (sender message timestamp : String) (w : World) : World :=
  let s := { w.store with
             chat := some (w.store.chat.getD [] ++
               [⟨sender, message, timestamp⟩]) }
  saveData { w with store := s }

/-- Model of `_send_chat_message`: a blank (stripped) message is silently
ignored; otherwise the message is appended as sender `"You"`.  The simulated
delayed auto-reply callback is presentation and is not modelled. -/
def sendChatMessage (raw timestamp : String) (w : World) : World :=
  let message := pyStrip raw
  if message = "" then w else appendChat "You" message timestamp w

/-! ## Serialization round-trip lemmas -/

theorem decodeEvent_encodeEvent (e : Event) :
    decodeEvent (encodeEvent e) = some e := rfl

theorem decodeFinanceEntry_encodeFinanceEntry (e : FinanceEntry) :
    decodeFinanceEntry (encodeFinanceEntry e) = some e := rfl

theorem decodeProject_encodeProject (p : Project) :
    decodeProject (encodeProject p) = some p := rfl

theorem decodeChatMessage_encodeChatMessage (m : ChatMessage) :
    decodeChatMessage (encodeChatMessage m) = some m := rfl

theorem decodeListWith_map (f : JValue → Option α) (g : α → JValue)
    (h : ∀ x, f (g x) = some x) :
    ∀ l : List α, decodeListWith f (l.map g) = some l
  | [] => rfl
  | x :: xs => by
      simp [decodeListWith, h x, decodeListWith_map f g h xs]

/-- The typed view inverts serialization: decoding a saved document recovers
the store, present and absent keys alike. -/
theorem asStore_encodeStore (s : Store) : asStore (encodeStore s) = some s := by
  obtain ⟨evs, fin, prjs, msgs⟩ := s
  cases evs <;> cases fin <;> cases prjs <;> cases msgs <;>
    simp [encodeStore, asStore, fieldAs, lookupKey,
          decodeListWith_map decodeEvent encodeEvent decodeEvent_encodeEvent,
          decodeListWith_map decodeFinanceEntry encodeFinanceEntry
            decodeFinanceEntry_encodeFinanceEntry,
          decodeListWith_map decodeProject encodeProject
            decodeProject_encodeProject,
          decodeListWith_map decodeChatMessage encodeChatMessage
            decodeChatMessage_encodeChatMessage]

/-! ## Date-format lemmas -/

/-- Chunk-level form of `parseDateYMD_of_isoDate`. -/
theorem validYMD_of_isoYMD (ys ms ds : List Char) (h : isoYMD ys ms ds = true) :
    (validYMD ys ms ds).isSome := by
  unfold isoYMD at h
  unfold validYMD
  rcases hy : digitsVal ys with _ | y <;> rw [hy] at h
  · exact absurd h (by simp)
  rcases hm : digitsVal ms with _ | m <;> rw [hm] at h
  · exact absurd h (by simp)
  rcases hd : digitsVal ds with _ | d <;> rw [hd] at h
  · exact absurd h (by simp)
  simp only [Bool.and_eq_true, beq_iff_eq, decide_eq_true_eq] at h
  obtain ⟨⟨⟨hy4, hm2⟩, hd2⟩, hv⟩ := h
  simp only [hy, hm, hd, Option.bind_eq_bind, Option.some_bind]
  rw [if_pos ⟨hy4, by omega, by omega, hv.1, hv.2.1, hv.2.2.1, hv.2.2.2.1,
    hv.2.2.2.2⟩]
  rfl

/-- An ISO `YYYY-MM-DD` calendar date is accepted by the `strptime` model
(whose month and day fields also tolerate single digits). -/
theorem parseDateYMD_of_isoDate (s : String) (h : isoDate s = true) :
    (parseDateYMD s).isSome := by
  unfold isoDate at h
  unfold parseDateYMD
  rcases hsplit : splitOnChar '-' s.data with
      _ | ⟨ys, _ | ⟨ms, _ | ⟨ds, _ | ⟨x4, rest⟩⟩⟩⟩ <;> rw [hsplit] at h
  · exact absurd h (by simp)
  · exact absurd h (by simp)
  · exact absurd h (by simp)
  · exact validYMD_of_isoYMD ys ms ds h
  · exact absurd h (by simp)

/-- The empty string is not an ISO date. -/
theorem isoDate_ne_empty (s : String) (h : isoDate s = true) : s ≠ "" := by
  intro he
  subst he
  exact absurd h (by decide)

/-- The world at first run: the constructor-initialized store and its
serialization on disk. -/
def initialWorld : World := ⟨initialStore, encodeStore initialStore⟩

/-- Loading the document written by a save recovers the saved store through
the typed view. -/
theorem asStore_loadData_saveData (w : World) :
    asStore (loadData (.content (saveData w).file)).data =
      some (saveData w).store := by
  show asStore (encodeStore w.store) = some w.store
  exact asStore_encodeStore w.store

/-! ## Claim theorems -/

/-- C1: for every finance collection the summary computes income as the sum
of amounts whose `entry_type` is exactly `"Income"` (case-sensitive), expense
as the sum of amounts whose `entry_type` case-insensitively equals
`"Expense"`, and balance as income minus expense; it is a pure recomputation
from the full collection, and on `[Income 100, Expense 40]` it yields
`{income := 100, expense := 40, balance := 60}`. -/
theorem finance_summary_correct :
    (∀ finance : List FinanceEntry,
      (updateFinanceSummary finance).income =
        ((finance.filter (fun e => decide (e.entry_type = "Income"))).map
          FinanceEntry.amount).sum ∧
      (updateFinanceSummary finance).expense =
        ((finance.filter (fun e =>
            caseInsensitiveEq e.entry_type "Expense")).map
          FinanceEntry.amount).sum ∧
      (updateFinanceSummary finance).balance =
        (updateFinanceSummary finance).income -
          (updateFinanceSummary finance).expense) ∧
    updateFinanceSummary
      [⟨"Income", 100, "Tithe", "", "t1"⟩,
       ⟨"Expense", 40, "Operations", "", "t2"⟩] = ⟨100, 40, 60⟩ := by
  constructor
  · intro finance
    refine ⟨?_, ?_, rfl⟩
    · simp only [updateFinanceSummary]
      rw [show (fun (e : FinanceEntry) => e.entry_type == "Income") =
            (fun e => decide (e.entry_type = "Income")) from
          funext fun e => by
            by_cases h : e.entry_type = "Income" <;> simp [h]]
    · simp only [updateFinanceSummary]
      rw [show (fun (e : FinanceEntry) => pyLower e.entry_type == "expense") =
            (fun e => caseInsensitiveEq e.entry_type "Expense") from
          funext fun e => by
            simp [caseInsensitiveEq,
              (by decide : pyLower "Expense" = "expense")]]
  · with_unfolding_all rfl

/-- C2: for all whitespace-trimmed inputs with a non-empty title and an ISO
`YYYY-MM-DD` calendar date, `add_event` succeeds, appends exactly the event
built from the inputs, and the document it saves loads back (without warning)
to a store containing that event with title, date and description
unchanged. -/
theorem add_event_load_roundtrip (title date desc : String) (w : World)
    (ht : pyStrip title = title) (hne : title ≠ "")
    (hiso : isoDate date = true) (hdt : pyStrip date = date)
    (hdesc : pyStrip desc = desc) :
    ∃ w' : World,
      addEvent title date desc w = (w', none) ∧
      w'.store.events =
        some (w.store.events.getD [] ++ [⟨title, date, desc⟩]) ∧
      (loadData (.content w'.file)).warned = false ∧
      asStore (loadData (.content w'.file)).data = some w'.store := by
  unfold addEvent
  rw [ht, hdt, hdesc]
  rw [if_neg (by push_neg; exact ⟨hne, isoDate_ne_empty date hiso⟩)]
  rcases hp : parseDateYMD date with _ | ymd
  · exact absurd (parseDateYMD_of_isoDate date hiso) (by simp [hp])
  · exact ⟨_, rfl, rfl, rfl, asStore_loadData_saveData _⟩

/-- C2 witness: the round trip at a concrete event on the first-run world. -/
theorem add_event_load_roundtrip_witness :
    ∃ w' : World,
      addEvent "Easter Service" "2025-04-20" "Celebration" initialWorld =
        (w', none) ∧
      w'.store.events =
        some (initialWorld.store.events.getD [] ++
          [⟨"Easter Service", "2025-04-20", "Celebration"⟩]) ∧
      (loadData (.content w'.file)).warned = false ∧
      asStore (loadData (.content w'.file)).data = some w'.store :=
  add_event_load_roundtrip "Easter Service" "2025-04-20" "Celebration"
    initialWorld (by decide) (by decide) (by decide) (by decide) (by decide)

/-- C3 counterexample: the document `[]` is valid JSON but does not parse as
the structured four-collection document, yet `load` neither resets the store
to four empty collections nor signals the data-corruption warning — it adopts
the value as-is. -/
theorem load_malformed_counterexample :
    (loadData (.content (.arr []))).warned = false ∧
    (loadData (.content (.arr []))).data = JValue.arr [] ∧
    JValue.arr [] ≠ encodeStore initialStore := by
  refine ⟨rfl, rfl, fun h => ?_⟩
  rw [show encodeStore initialStore =
      JValue.obj [("events", .arr []), ("finance", .arr []),
        ("projects", .arr []), ("chat", .arr [])] from rfl] at h
  exact JValue.noConfusion h

/-- C3 (amended): for every backing document whose text fails to parse as
JSON, `load` raises nothing, resets the store to four empty collections and
signals the data-corruption warning; an absent document also starts from four
empty collections but without the warning.  (A document that parses as JSON
but is not the four-collection structure is adopted as-is, without reset or
warning.) -/
theorem load_not_json_resets_and_warns :
    loadData .notJson = ⟨encodeStore initialStore, true⟩ ∧
    loadData .absent = ⟨encodeStore initialStore, false⟩ ∧
    asStore (encodeStore initialStore) = some initialStore ∧
    initialStore = ⟨some [], some [], some [], some []⟩ :=
  ⟨rfl, rfl, asStore_encodeStore _, rfl⟩

/-- C4: adding two events with the same (title, date) key leaves the store
holding two entries under that key, and a subsequent `delete_event` by that
(title, date) removes both. -/
theorem add_duplicate_events_then_delete :
    ∃ w1 w2 w3 : World,
      addEvent "Easter Service" "2025-04-20" "Celebration" initialWorld =
        (w1, none) ∧
      addEvent "Easter Service" "2025-04-20" "Duplicate" w1 = (w2, none) ∧
      w2.store.events = some
        [⟨"Easter Service", "2025-04-20", "Celebration"⟩,
         ⟨"Easter Service", "2025-04-20", "Duplicate"⟩] ∧
      deleteEvent "Easter Service" "2025-04-20" w2 = (w3, none) ∧
      w3.store.events = some [] := by
  with_unfolding_all exact ⟨_, _, _, rfl, rfl, rfl, rfl, rfl⟩

/-- C5: `add_finance_entry` rejects a non-numeric amount string and a parsed
amount at most zero with a validation error and no state change; an accepted
entry is appended with the blank (stripped) category defaulted to
`"Uncategorized"`. -/
theorem add_finance_entry_validation (entryType amountRaw categoryRaw noteRaw
    createdAt : String) (w : World) :
    (parseFloat (pyStrip amountRaw) = none →
      addFinanceEntry entryType amountRaw categoryRaw noteRaw createdAt w =
        (w, some (.validationError "Invalid amount"))) ∧
    (∀ q : ℚ, parseFloat (pyStrip amountRaw) = some q → q ≤ 0 →
      addFinanceEntry entryType amountRaw categoryRaw noteRaw createdAt w =
        (w, some (.validationError "Invalid amount"))) ∧
    (∀ q : ℚ, parseFloat (pyStrip amountRaw) = some q → 0 < q →
      addFinanceEntry entryType amountRaw categoryRaw noteRaw createdAt w =
        (saveData { w with store := { w.store with
            finance := some (w.store.finance.getD [] ++
              [⟨entryType, q,
                if pyStrip categoryRaw = "" then "Uncategorized"
                else pyStrip categoryRaw,
                pyStrip noteRaw, createdAt⟩]) } }, none)) := by
  unfold addFinanceEntry
  refine ⟨fun h => ?_, fun q hq hle => ?_, fun q hq hpos => ?_⟩
  · simp only [h]
  · simp only [hq]
    rw [if_pos hle]
  · simp only [hq]
    rw [if_neg (not_le.mpr hpos)]

/-- C5 witness: a non-numeric amount and a non-positive amount are rejected
without touching the world; a positive amount is appended with the blank
category defaulted. -/
theorem add_finance_entry_validation_witness :
    (addFinanceEntry "Income" "abc" "" "" "t" initialWorld =
      (initialWorld, some (.validationError "Invalid amount"))) ∧
    (addFinanceEntry "Income" "-3" "" "" "t" initialWorld =
      (initialWorld, some (.validationError "Invalid amount"))) ∧
    (addFinanceEntry "Income" "25.5" "" "gift" "t" initialWorld =
      (saveData { initialWorld with store := { initialWorld.store with
        finance := some (initialWorld.store.finance.getD [] ++
          [⟨"Income", 51 / 2,
            if pyStrip "" = "" then "Uncategorized" else pyStrip "",
            pyStrip "gift", "t"⟩]) } }, none)) :=
  ⟨(add_finance_entry_validation "Income" "abc" "" "" "t" initialWorld).1
      (by decide),
   (add_finance_entry_validation "Income" "-3" "" "" "t" initialWorld).2.1
      (-3) (by with_unfolding_all rfl) (by norm_num),
   (add_finance_entry_validation "Income" "25.5" "" "gift" "t"
      initialWorld).2.2 (51 / 2) (by with_unfolding_all rfl) (by norm_num)⟩

/-- C6 counterexample: `add_project` accepts the budget string `"-5"` — the
code parses the budget with `float(...)` and performs no sign check — so a
project with the negative budget `-5` is stored instead of the operation
failing with a validation error. -/
theorem add_project_negative_budget_counterexample :
    (addProject "Hall Renovation" "Ann" "2025-01-01" "" "-5" "Planned" ""
      initialWorld).2 = none ∧
    (addProject "Hall Renovation" "Ann" "2025-01-01" "" "-5" "Planned" ""
      initialWorld).1.store.projects =
      some [⟨"Hall Renovation", "Ann", "2025-01-01", "", -5, "Planned", ""⟩] ∧
    (-5 : ℚ) < 0 := by
  refine ⟨by with_unfolding_all rfl, by with_unfolding_all rfl, by norm_num⟩

/-- C6 (amended): `add_project` validates that the name is non-empty and
that the budget text (defaulted to `"0"` when blank) parses as a number —
with no sign check, so negative budgets are accepted — failing with a
validation error and no state change otherwise. -/
theorem add_project_validation (nameRaw managerRaw startRaw endRaw budgetRaw
    status descRaw : String) (w : World) :
    (pyStrip nameRaw = "" →
      addProject nameRaw managerRaw startRaw endRaw budgetRaw status descRaw
        w = (w, some (.validationError "Missing information"))) ∧
    (pyStrip nameRaw ≠ "" →
      parseFloat (if pyStrip budgetRaw = "" then "0" else pyStrip budgetRaw) =
        none →
      addProject nameRaw managerRaw startRaw endRaw budgetRaw status descRaw
        w = (w, some (.validationError "Invalid budget"))) ∧
    (∀ b : ℚ, pyStrip nameRaw ≠ "" →
      parseFloat (if pyStrip budgetRaw = "" then "0" else pyStrip budgetRaw) =
        some b →
      addProject nameRaw managerRaw startRaw endRaw budgetRaw status descRaw
        w =
        (saveData { w with store := { w.store with
            projects := some (w.store.projects.getD [] ++
              [⟨pyStrip nameRaw, pyStrip managerRaw, pyStrip startRaw,
                pyStrip endRaw, b, status, pyStrip descRaw⟩]) } }, none)) := by
  unfold addProject
  refine ⟨fun h => ?_, fun hn hb => ?_, fun b hn hb => ?_⟩
  · simp [h]
  · simp only [hb]
    rw [if_neg hn]
  · simp only [hb]
    rw [if_neg hn]

/-- C6 witness: an empty name and a non-numeric budget are rejected without
state change; a parsed budget is stored. -/
theorem add_project_validation_witness :
    (addProject "" "Ann" "" "" "10" "Planned" "" initialWorld =
      (initialWorld, some (.validationError "Missing information"))) ∧
    (addProject "Hall" "Ann" "" "" "ten" "Planned" "" initialWorld =
      (initialWorld, some (.validationError "Invalid budget"))) ∧
    (addProject "Hall" "Ann" "" "" "10" "Planned" "" initialWorld =
      (saveData { initialWorld with store := { initialWorld.store with
        projects := some (initialWorld.store.projects.getD [] ++
          [⟨pyStrip "Hall", pyStrip "Ann", pyStrip "", pyStrip "", 10,
            "Planned", pyStrip ""⟩]) } }, none)) :=
  ⟨(add_project_validation "" "Ann" "" "" "10" "Planned" ""
      initialWorld).1 (by decide),
   (add_project_validation "Hall" "Ann" "" "" "ten" "Planned" ""
      initialWorld).2.1 (by decide) (by decide),
   (add_project_validation "Hall" "Ann" "" "" "10" "Planned" ""
      initialWorld).2.2 10 (by decide) (by with_unfolding_all rfl)⟩

/-- C7: `delete_event` removes exactly the entries matching the given
(title, date) pair — none matching remains, every non-matching entry is kept
in its original relative order (the result is a sublist of the original) —
and when no entry matches, the collection is unchanged. -/
theorem delete_event_exact (title date : String) (w : World)
    (evs : List Event) (h : w.store.events = some evs) :
    ∃ evs' : List Event,
      deleteEvent title date w =
        (saveData { w with store := { w.store with events := some evs' } },
         none) ∧
      evs' = evs.filter (fun e => decide ¬(e.title = title ∧ e.date = date)) ∧
      evs'.Sublist evs ∧
      (∀ e ∈ evs', ¬(e.title = title ∧ e.date = date)) ∧
      (∀ e ∈ evs, ¬(e.title = title ∧ e.date = date) → e ∈ evs') ∧
      ((∀ e ∈ evs, ¬(e.title = title ∧ e.date = date)) → evs' = evs) := by
  have hpt : ∀ e : Event, (!(e.date == date && e.title == title)) =
      decide ¬(e.title = title ∧ e.date = date) := by
    intro e
    by_cases h1 : e.title = title <;> by_cases h2 : e.date = date <;>
      simp [h1, h2]
  unfold deleteEvent
  rw [h]
  refine ⟨evs.filter (fun e => !(e.date == date && e.title == title)),
    rfl, List.filter_congr (fun e _ => hpt e), evs.filter_sublist, ?_, ?_, ?_⟩
  · intro e he
    have hmem := (List.mem_filter.mp he).2
    rw [hpt e] at hmem
    exact of_decide_eq_true hmem
  · intro e he hne
    refine List.mem_filter.mpr ⟨he, ?_⟩
    rw [hpt e]
    exact decide_eq_true hne
  · intro hall
    refine List.filter_eq_self.mpr fun e he => ?_
    rw [hpt e]
    exact decide_eq_true (hall e he)

/-- C7 witness: deleting by a duplicated key from a mixed collection. -/
theorem delete_event_exact_witness :
    ∃ evs' : List Event,
      deleteEvent "Easter Service" "2025-04-20"
        ⟨⟨some [⟨"Easter Service", "2025-04-20", "Celebration"⟩,
               ⟨"Choir Practice", "2025-05-01", "weekly"⟩,
               ⟨"Easter Service", "2025-04-20", "Duplicate"⟩],
          some [], some [], some []⟩, .obj []⟩ =
        (saveData { (⟨⟨some [⟨"Easter Service", "2025-04-20", "Celebration"⟩,
               ⟨"Choir Practice", "2025-05-01", "weekly"⟩,
               ⟨"Easter Service", "2025-04-20", "Duplicate"⟩],
          some [], some [], some []⟩, .obj []⟩ : World) with
            store := { (⟨some [⟨"Easter Service", "2025-04-20", "Celebration"⟩,
               ⟨"Choir Practice", "2025-05-01", "weekly"⟩,
               ⟨"Easter Service", "2025-04-20", "Duplicate"⟩],
          some [], some [], some []⟩ : Store) with events := some evs' } },
         none) ∧
      evs' = [⟨"Easter Service", "2025-04-20", "Celebration"⟩,
              ⟨"Choir Practice", "2025-05-01", "weekly"⟩,
              ⟨"Easter Service", "2025-04-20", "Duplicate"⟩].filter
        (fun e => decide ¬(e.title = "Easter Service" ∧
                           e.date = "2025-04-20")) ∧
      evs'.Sublist [⟨"Easter Service", "2025-04-20", "Celebration"⟩,
              ⟨"Choir Practice", "2025-05-01", "weekly"⟩,
              ⟨"Easter Service", "2025-04-20", "Duplicate"⟩] ∧
      (∀ e ∈ evs', ¬(e.title = "Easter Service" ∧ e.date = "2025-04-20")) ∧
      (∀ e ∈ ([⟨"Easter Service", "2025-04-20", "Celebration"⟩,
              ⟨"Choir Practice", "2025-05-01", "weekly"⟩,
              ⟨"Easter Service", "2025-04-20", "Duplicate"⟩] : List Event),
        ¬(e.title = "Easter Service" ∧ e.date = "2025-04-20") → e ∈ evs') ∧
      ((∀ e ∈ ([⟨"Easter Service", "2025-04-20", "Celebration"⟩,
              ⟨"Choir Practice", "2025-05-01", "weekly"⟩,
              ⟨"Easter Service", "2025-04-20", "Duplicate"⟩] : List Event),
        ¬(e.title = "Easter Service" ∧ e.date = "2025-04-20")) →
        evs' = [⟨"Easter Service", "2025-04-20", "Celebration"⟩,
              ⟨"Choir Practice", "2025-05-01", "weekly"⟩,
              ⟨"Easter Service", "2025-04-20", "Duplicate"⟩]) :=
  delete_event_exact "Easter Service" "2025-04-20" _ _ rfl

/-- Chunk of C8: updating the first matching project through the list, with
every earlier element non-matching, rewrites exactly that element. -/
theorem updateFirstStatus_append (name newStatus : String) (p : Project)
    (post : List Project) :
    ∀ pre : List Project, (∀ q ∈ pre, q.name ≠ name) → p.name = name →
      updateFirstStatus name newStatus (pre ++ p :: post) =
        some (pre ++ { p with status := newStatus } :: post)
  | [], _, hp => by
      simp [updateFirstStatus, hp]
  | q :: pre, hpre, hp => by
      have hq : q.name ≠ name := hpre q (List.mem_cons_self q pre)
      simp [updateFirstStatus, hq,
        updateFirstStatus_append name newStatus p post pre
          (fun r hr => hpre r (List.mem_cons_of_mem q hr)) hp]

/-- C8: `update_project_status` mutates the status of only the first project
whose name matches: every earlier (non-matching) project and every later
project — same-named ones included — are returned untouched, and every other
field of the updated project keeps its value. -/
theorem update_project_status_first_match (name newStatus : String)
    (w : World) (pre post : List Project) (p : Project)
    (hw : w.store.projects = some (pre ++ p :: post))
    (hpre : ∀ q ∈ pre, q.name ≠ name) (hp : p.name = name) :
    updateProjectStatus name newStatus w =
      (saveData { w with store := { w.store with
          projects := some (pre ++ { p with status := newStatus } :: post) } },
       none) ∧
    ({ p with status := newStatus }).status = newStatus ∧
    ({ p with status := newStatus }).name = p.name ∧
    ({ p with status := newStatus }).manager = p.manager ∧
    ({ p with status := newStatus }).start_date = p.start_date ∧
    ({ p with status := newStatus }).end_date = p.end_date ∧
    ({ p with status := newStatus }).budget = p.budget ∧
    ({ p with status := newStatus }).description = p.description := by
  refine ⟨?_, rfl, rfl, rfl, rfl, rfl, rfl, rfl⟩
  unfold updateProjectStatus
  rw [hw]
  simp only [Option.getD_some]
  rw [updateFirstStatus_append name newStatus p post pre hpre hp]

/-- C8 witness: with two projects both named "Hall Renovation", only the
first lookup match has its status updated. -/
theorem update_project_status_first_match_witness :
    updateProjectStatus "Hall Renovation" "Completed"
      ⟨⟨some [], some [],
        some [⟨"Hall Renovation", "Bob", "2025-01-01", "2025-06-01", 1000,
               "In Progress", "roof"⟩,
              ⟨"Hall Renovation", "Carol", "2025-02-01", "", 500,
               "Planned", "walls"⟩], some []⟩, .obj []⟩ =
      (saveData { (⟨⟨some [], some [],
        some [⟨"Hall Renovation", "Bob", "2025-01-01", "2025-06-01", 1000,
               "In Progress", "roof"⟩,
              ⟨"Hall Renovation", "Carol", "2025-02-01", "", 500,
               "Planned", "walls"⟩], some []⟩, .obj []⟩ : World) with
        store := { (⟨some [], some [],
          some [⟨"Hall Renovation", "Bob", "2025-01-01", "2025-06-01", 1000,
                 "In Progress", "roof"⟩,
                ⟨"Hall Renovation", "Carol", "2025-02-01", "", 500,
                 "Planned", "walls"⟩], some []⟩ : Store) with
          projects := some ([] ++
            { (⟨"Hall Renovation", "Bob", "2025-01-01", "2025-06-01", 1000,
                "In Progress", "roof"⟩ : Project) with
              status := "Completed" } ::
            [⟨"Hall Renovation", "Carol", "2025-02-01", "", 500,
              "Planned", "walls"⟩]) } }, none) ∧
    ({ (⟨"Hall Renovation", "Bob", "2025-01-01", "2025-06-01", 1000,
        "In Progress", "roof"⟩ : Project) with
      status := "Completed" }).status = "Completed" ∧
    ({ (⟨"Hall Renovation", "Bob", "2025-01-01", "2025-06-01", 1000,
        "In Progress", "roof"⟩ : Project) with
      status := "Completed" }).name = "Hall Renovation" ∧
    ({ (⟨"Hall Renovation", "Bob", "2025-01-01", "2025-06-01", 1000,
        "In Progress", "roof"⟩ : Project) with
      status := "Completed" }).manager = "Bob" ∧
    ({ (⟨"Hall Renovation", "Bob", "2025-01-01", "2025-06-01", 1000,
        "In Progress", "roof"⟩ : Project) with
      status := "Completed" }).start_date = "2025-01-01" ∧
    ({ (⟨"Hall Renovation", "Bob", "2025-01-01", "2025-06-01", 1000,
        "In Progress", "roof"⟩ : Project) with
      status := "Completed" }).end_date = "2025-06-01" ∧
    ({ (⟨"Hall Renovation", "Bob", "2025-01-01", "2025-06-01", 1000,
        "In Progress", "roof"⟩ : Project) with
      status := "Completed" }).budget = 1000 ∧
    ({ (⟨"Hall Renovation", "Bob", "2025-01-01", "2025-06-01", 1000,
        "In Progress", "roof"⟩ : Project) with
      status := "Completed" }).description = "roof" :=
  update_project_status_first_match "Hall Renovation" "Completed" _ [] _ _
    rfl (fun q hq => absurd hq (List.not_mem_nil q)) rfl

/-- C9: every mutating operation that completes (returns no error) ends with
a full synchronous rewrite of the backing document: afterwards the persisted
document equals the serialization of the full in-memory state.  This covers
`add_event`, `delete_event`, `add_finance_entry`, `add_project`,
`update_project_status`, `delete_project` and chat appends (a blank chat
message is ignored and mutates nothing). -/
theorem mutations_save_full_document (t d dsc et amt cat nt ca pn pm psd ped
    pb pst pdsc un ust dn cs cm cts raw : String) (w : World) :
    ((addEvent t d dsc w).2 = none →
      (addEvent t d dsc w).1.file =
        encodeStore (addEvent t d dsc w).1.store) ∧
    ((deleteEvent t d w).2 = none →
      (deleteEvent t d w).1.file =
        encodeStore (deleteEvent t d w).1.store) ∧
    ((addFinanceEntry et amt cat nt ca w).2 = none →
      (addFinanceEntry et amt cat nt ca w).1.file =
        encodeStore (addFinanceEntry et amt cat nt ca w).1.store) ∧
    ((addProject pn pm psd ped pb pst pdsc w).2 = none →
      (addProject pn pm psd ped pb pst pdsc w).1.file =
        encodeStore (addProject pn pm psd ped pb pst pdsc w).1.store) ∧
    ((updateProjectStatus un ust w).2 = none →
      (updateProjectStatus un ust w).1.file =
        encodeStore (updateProjectStatus un ust w).1.store) ∧
    ((deleteProject dn w).1.file =
      encodeStore (deleteProject dn w).1.store) ∧
    ((appendChat cs cm cts w).file =
      encodeStore (appendChat cs cm cts w).store) ∧
    (pyStrip raw ≠ "" →
      (sendChatMessage raw cts w).file =
        encodeStore (sendChatMessage raw cts w).store) := by
  refine ⟨?_, ?_, ?_, ?_, ?_, rfl, rfl, ?_⟩
  · by_cases hc : pyStrip t = "" ∨ pyStrip d = ""
    · simp only [addEvent]
      rw [if_pos hc]
      intro hcon; simp at hcon
    · simp only [addEvent]
      rw [if_neg hc]
      rcases hp : parseDateYMD (pyStrip d) with _ | v
      · intro hcon; simp at hcon
      · intro _; rfl
  · rcases he : w.store.events with _ | evs <;> simp only [deleteEvent, he]
    · intro hcon; simp at hcon
    · intro _; rfl
  · rcases hp : parseFloat (pyStrip amt) with _ | q <;>
      simp only [addFinanceEntry, hp]
    · intro hcon; simp at hcon
    · by_cases hq : q ≤ 0
      · rw [if_pos hq]
        intro hcon; simp at hcon
      · rw [if_neg hq]
        intro _; rfl
  · by_cases hn : pyStrip pn = ""
    · simp only [addProject]
      rw [if_pos hn]
      intro hcon; simp at hcon
    · simp only [addProject]
      rw [if_neg hn]
      rcases hb : parseFloat
          (if pyStrip pb = "" then "0" else pyStrip pb) with _ | b
      · intro hcon; simp at hcon
      · intro _; rfl
  · rcases hu : updateFirstStatus un ust (w.store.projects.getD []) with _ | ps <;>
      simp only [updateProjectStatus, hu]
    · intro hcon; simp at hcon
    · intro _; rfl
  · intro h
    simp only [sendChatMessage]
    rw [if_neg h]
    rfl

/-- C9 witness: each mutator run successfully on a concrete world leaves the
file equal to the serialized store. -/
theorem mutations_save_full_document_witness :
    ((addEvent "Picnic" "2025-07-04" "park" initialWorld).1.file =
      encodeStore (addEvent "Picnic" "2025-07-04" "park"
        initialWorld).1.store) ∧
    ((deleteEvent "Picnic" "2025-07-04" initialWorld).1.file =
      encodeStore (deleteEvent "Picnic" "2025-07-04" initialWorld).1.store) ∧
    ((addFinanceEntry "Income" "5" "" "" "t" initialWorld).1.file =
      encodeStore (addFinanceEntry "Income" "5" "" "" "t"
        initialWorld).1.store) ∧
    ((addProject "Roof" "" "" "" "5" "Planned" "" initialWorld).1.file =
      encodeStore (addProject "Roof" "" "" "" "5" "Planned" ""
        initialWorld).1.store) ∧
    ((updateProjectStatus "Roof" "Completed"
        ⟨⟨some [], some [], some [⟨"Roof", "", "", "", 5, "Planned", ""⟩],
          some []⟩, .obj []⟩).1.file =
      encodeStore (updateProjectStatus "Roof" "Completed"
        ⟨⟨some [], some [], some [⟨"Roof", "", "", "", 5, "Planned", ""⟩],
          some []⟩, .obj []⟩).1.store) ∧
    ((deleteProject "Roof" initialWorld).1.file =
      encodeStore (deleteProject "Roof" initialWorld).1.store) ∧
    ((appendChat "You" "hello" "12:00" initialWorld).file =
      encodeStore (appendChat "You" "hello" "12:00" initialWorld).store) ∧
    ((sendChatMessage "hello" "12:00" initialWorld).file =
      encodeStore (sendChatMessage "hello" "12:00" initialWorld).store) :=
  ⟨(mutations_save_full_document "Picnic" "2025-07-04" "park" "Income" "5" ""
      "" "t" "Roof" "" "" "" "5" "Planned" "" "Roof" "Completed" "Roof" "You"
      "hello" "12:00" "hello" initialWorld).1 (by with_unfolding_all rfl),
   (mutations_save_full_document "Picnic" "2025-07-04" "park" "Income" "5" ""
      "" "t" "Roof" "" "" "" "5" "Planned" "" "Roof" "Completed" "Roof" "You"
      "hello" "12:00" "hello" initialWorld).2.1 (by with_unfolding_all rfl),
   (mutations_save_full_document "Picnic" "2025-07-04" "park" "Income" "5" ""
      "" "t" "Roof" "" "" "" "5" "Planned" "" "Roof" "Completed" "Roof" "You"
      "hello" "12:00" "hello" initialWorld).2.2.1 (by with_unfolding_all rfl),
   (mutations_save_full_document "Picnic" "2025-07-04" "park" "Income" "5" ""
      "" "t" "Roof" "" "" "" "5" "Planned" "" "Roof" "Completed" "Roof" "You"
      "hello" "12:00" "hello" initialWorld).2.2.2.1
      (by with_unfolding_all rfl),
   (mutations_save_full_document "Picnic" "2025-07-04" "park" "Income" "5" ""
      "" "t" "Roof" "" "" "" "5" "Planned" "" "Roof" "Completed" "Roof" "You"
      "hello" "12:00" "hello"
      ⟨⟨some [], some [], some [⟨"Roof", "", "", "", 5, "Planned", ""⟩],
        some []⟩, .obj []⟩).2.2.2.2.1 (by with_unfolding_all rfl),
   (mutations_save_full_document "Picnic" "2025-07-04" "park" "Income" "5" ""
      "" "t" "Roof" "" "" "" "5" "Planned" "" "Roof" "Completed" "Roof" "You"
      "hello" "12:00" "hello" initialWorld).2.2.2.2.2.1,
   (mutations_save_full_document "Picnic" "2025-07-04" "park" "Income" "5" ""
      "" "t" "Roof" "" "" "" "5" "Planned" "" "Roof" "Completed" "Roof" "You"
      "hello" "12:00" "hello" initialWorld).2.2.2.2.2.2.1,
   (mutations_save_full_document "Picnic" "2025-07-04" "park" "Income" "5" ""
      "" "t" "Roof" "" "" "" "5" "Planned" "" "Roof" "Completed" "Roof" "You"
      "hello" "12:00" "hello" initialWorld).2.2.2.2.2.2.2 (by decide)⟩

/-- A valid document lacking only the `events` key: the other three
collection keys are present and the chat collection is populated. -/
def eventlessDoc : JValue :=
  .obj [("finance", .arr []), ("projects", .arr []),
    ("chat", .arr [.obj [("sender", .str "You"), ("message", .str "hi"),
      ("timestamp", .str "12:00")]])]

/-- The typed view of `eventlessDoc`: events absent, the rest present. -/
def eventlessStore : Store :=
  ⟨none, some [], some [], some [⟨"You", "hi", "12:00"⟩]⟩

/-- C10 counterexample: a valid document lacking only the `events` key (the
other three collections present, chat populated) loads without warning and
its typed view has just the events collection absent, but `delete_event` on
that store hits the direct `self.data["events"]` access and fails with a
`KeyError` instead of treating the missing key as an empty collection. -/
theorem delete_event_missing_key_counterexample :
    asStore eventlessDoc = some eventlessStore ∧
    (loadData (.content eventlessDoc)).warned = false ∧
    (loadData (.content eventlessDoc)).data = eventlessDoc ∧
    deleteEvent "Easter Service" "2025-04-20" ⟨eventlessStore, eventlessDoc⟩ =
      (⟨eventlessStore, eventlessDoc⟩, some (.keyError "events")) :=
  ⟨by decide, rfl, rfl, rfl⟩

/-- C10 (amended): for every store loaded from a document lacking a
top-level key — the other collections arbitrary, populated or not — every
subsequent operation on the missing collection treats it as an empty
collection and raises no error: `add_event`, `add_finance_entry`,
`add_project` and chat appends create the key via `setdefault`, while the
finance summary, `update_project_status` and `delete_project` read via
`.get(key, [])`.  The single exception is `delete_event`, which reads
`self.data["events"]` directly and fails with a `KeyError` when the events
key is absent, leaving the state unchanged (through the UI this path is
unreachable, since deleting requires selecting a row and rows exist only
when the key does). -/
theorem missing_key_behavior (w : World) :
    (w.store.events = none → ∀ t d dsc, pyStrip t ≠ "" →
      isoDate (pyStrip d) = true →
      (addEvent t d dsc w).2 = none ∧
      (addEvent t d dsc w).1.store.events =
        some [⟨pyStrip t, pyStrip d, pyStrip dsc⟩]) ∧
    (w.store.finance = none →
      updateFinanceSummary (w.store.finance.getD []) = ⟨0, 0, 0⟩ ∧
      ∀ et amt cat nt ca, ∀ q : ℚ, parseFloat (pyStrip amt) = some q →
        0 < q →
        (addFinanceEntry et amt cat nt ca w).2 = none ∧
        (addFinanceEntry et amt cat nt ca w).1.store.finance =
          some [⟨et, q,
            if pyStrip cat = "" then "Uncategorized" else pyStrip cat,
            pyStrip nt, ca⟩]) ∧
    (w.store.projects = none →
      (∀ pn pm psd ped pb pst pdsc, pyStrip pn ≠ "" → ∀ b : ℚ,
        parseFloat (if pyStrip pb = "" then "0" else pyStrip pb) = some b →
        (addProject pn pm psd ped pb pst pdsc w).2 = none ∧
        (addProject pn pm psd ped pb pst pdsc w).1.store.projects =
          some [⟨pyStrip pn, pyStrip pm, pyStrip psd, pyStrip ped, b, pst,
            pyStrip pdsc⟩]) ∧
      (∀ n, (deleteProject n w).2 = none ∧
        (deleteProject n w).1.store.projects = some []) ∧
      (∀ n st, updateProjectStatus n st w =
        (w, some (.validationError "Missing project")))) ∧
    (w.store.chat = none →
      ∀ s m ts, (appendChat s m ts w).store.chat = some [⟨s, m, ts⟩]) ∧
    (w.store.events = none →
      ∀ t d, deleteEvent t d w = (w, some (.keyError "events"))) := by
  refine ⟨?_, ?_, ?_, ?_, ?_⟩
  · intro hev t d dsc hne hiso
    simp only [addEvent]
    rw [if_neg (by push_neg; exact ⟨hne, isoDate_ne_empty (pyStrip d) hiso⟩)]
    rcases hp : parseDateYMD (pyStrip d) with _ | ymd
    · exact absurd (parseDateYMD_of_isoDate (pyStrip d) hiso) (by simp [hp])
    · exact ⟨rfl, by simp [saveData, hev]⟩
  · intro hfin
    constructor
    · rw [hfin]
      with_unfolding_all rfl
    · intro et amt cat nt ca q hq hpos
      simp only [addFinanceEntry, hq]
      rw [if_neg (not_le.mpr hpos)]
      exact ⟨rfl, by simp [saveData, hfin]⟩
  · intro hprj
    refine ⟨?_, ?_, ?_⟩
    · intro pn pm psd ped pb pst pdsc hn b hb
      simp only [addProject, hb]
      rw [if_neg hn]
      exact ⟨rfl, by simp [saveData, hprj]⟩
    · intro n
      refine ⟨rfl, ?_⟩
      simp [deleteProject, saveData, hprj]
    · intro n st
      simp [updateProjectStatus, hprj, updateFirstStatus]
  · intro hcht s m ts
    simp [appendChat, saveData, hcht]
  · intro hev t d
    unfold deleteEvent
    rw [hev]

/-- C10 amended-claim witness: each behavior at a concrete store lacking
exactly the one relevant key, the other three collections present (one of
them populated). -/
theorem missing_key_behavior_witness :
    ((addEvent "Picnic" "2025-07-04" "park"
        ⟨eventlessStore, eventlessDoc⟩).2 = none ∧
      (addEvent "Picnic" "2025-07-04" "park"
        ⟨eventlessStore, eventlessDoc⟩).1.store.events =
        some [⟨pyStrip "Picnic", pyStrip "2025-07-04", pyStrip "park"⟩]) ∧
    updateFinanceSummary
      ((⟨⟨some [⟨"Picnic", "2025-07-04", "park"⟩], none, some [], some []⟩,
         .obj []⟩ : World).store.finance.getD []) = ⟨0, 0, 0⟩ ∧
    ((addFinanceEntry "Income" "5" "" "" "t"
        ⟨⟨some [⟨"Picnic", "2025-07-04", "park"⟩], none, some [], some []⟩,
         .obj []⟩).2 = none ∧
      (addFinanceEntry "Income" "5" "" "" "t"
        ⟨⟨some [⟨"Picnic", "2025-07-04", "park"⟩], none, some [], some []⟩,
         .obj []⟩).1.store.finance =
        some [⟨"Income", 5,
          if pyStrip "" = "" then "Uncategorized" else pyStrip "",
          pyStrip "", "t"⟩]) ∧
    ((addProject "Roof" "" "" "" "5" "Planned" ""
        ⟨⟨some [⟨"Picnic", "2025-07-04", "park"⟩], some [], none, some []⟩,
         .obj []⟩).2 = none ∧
      (addProject "Roof" "" "" "" "5" "Planned" ""
        ⟨⟨some [⟨"Picnic", "2025-07-04", "park"⟩], some [], none, some []⟩,
         .obj []⟩).1.store.projects =
        some [⟨pyStrip "Roof", pyStrip "", pyStrip "", pyStrip "", 5,
          "Planned", pyStrip ""⟩]) ∧
    ((deleteProject "Roof"
        ⟨⟨some [⟨"Picnic", "2025-07-04", "park"⟩], some [], none, some []⟩,
         .obj []⟩).2 = none ∧
      (deleteProject "Roof"
        ⟨⟨some [⟨"Picnic", "2025-07-04", "park"⟩], some [], none, some []⟩,
         .obj []⟩).1.store.projects = some []) ∧
    updateProjectStatus "Roof" "Completed"
      ⟨⟨some [⟨"Picnic", "2025-07-04", "park"⟩], some [], none, some []⟩,
       .obj []⟩ =
      (⟨⟨some [⟨"Picnic", "2025-07-04", "park"⟩], some [], none, some []⟩,
        .obj []⟩, some (.validationError "Missing project")) ∧
    (appendChat "You" "hi" "12:00"
      ⟨⟨some [⟨"Picnic", "2025-07-04", "park"⟩], some [], some [], none⟩,
       .obj []⟩).store.chat = some [⟨"You", "hi", "12:00"⟩] ∧
    deleteEvent "Easter Service" "2025-04-20"
      ⟨eventlessStore, eventlessDoc⟩ =
      (⟨eventlessStore, eventlessDoc⟩, some (.keyError "events")) :=
  ⟨(missing_key_behavior ⟨eventlessStore, eventlessDoc⟩).1
      rfl "Picnic" "2025-07-04" "park" (by decide) (by decide),
   ((missing_key_behavior
      ⟨⟨some [⟨"Picnic", "2025-07-04", "park"⟩], none, some [], some []⟩,
       .obj []⟩).2.1 rfl).1,
   ((missing_key_behavior
      ⟨⟨some [⟨"Picnic", "2025-07-04", "park"⟩], none, some [], some []⟩,
       .obj []⟩).2.1 rfl).2 "Income" "5" "" "" "t" 5
      (by with_unfolding_all rfl) (by norm_num),
   ((missing_key_behavior
      ⟨⟨some [⟨"Picnic", "2025-07-04", "park"⟩], some [], none, some []⟩,
       .obj []⟩).2.2.1 rfl).1 "Roof" "" "" "" "5" "Planned" ""
      (by decide) 5 (by with_unfolding_all rfl),
   ((missing_key_behavior
      ⟨⟨some [⟨"Picnic", "2025-07-04", "park"⟩], some [], none, some []⟩,
       .obj []⟩).2.2.1 rfl).2.1 "Roof",
   ((missing_key_behavior
      ⟨⟨some [⟨"Picnic", "2025-07-04", "park"⟩], some [], none, some []⟩,
       .obj []⟩).2.2.1 rfl).2.2 "Roof" "Completed",
   (missing_key_behavior
      ⟨⟨some [⟨"Picnic", "2025-07-04", "park"⟩], some [], some [], none⟩,
       .obj []⟩).2.2.2.1 rfl "You" "hi" "12:00",
   (missing_key_behavior ⟨eventlessStore, eventlessDoc⟩).2.2.2.2
      rfl "Easter Service" "2025-04-20"⟩

end SDALocal
